import Mathlib

/-!
Shallow embedding of the resume-conversion server (`src/server.js`) and proofs
about it.

The two relevant pieces of logic are:

* `callChatGPTAPI` (lines 114–210): response handling of the remote completion
  call — the non-success branch (lines 185–189) and the JSON-extraction
  fallback (lines 194–204).  The remote transport and `JSON.parse` itself are
  external: the parse function is a parameter of the model.

* `generateWordDocument` (lines 213–535): the pure renderer mapping the
  structured record onto an ordered list of styled paragraph blocks.  The
  `docx` serialization (`Packer.toBuffer`) is external; the model captures the
  block sequence handed to the `Document` constructor.

Strings are Lean `String`s except in the brace-span extraction, which
manipulates character positions and is modelled on `List Char`.
-/

namespace Resume

/-- JavaScript `value || default` for an optional string field: an absent
field and the empty string are both falsy, anything else is returned as is
(`data.name || "NAME"` and friends in `generateWordDocument`). -/
def jsOr (v : Option String) (d : String) : String :=
  match v with
  | some s => if s = "" then d else s
  | none => d

/-- JavaScript truthiness of an optional string field (`data.personal?.languages ?`):
true exactly when the field is present and non-empty. -/
def jsTruthy (v : Option String) : Bool :=
  match v with
  | some s => !(s == "")
  | none => false

/-- JavaScript `list || []`: an absent list becomes the empty list, a present
list (empty arrays are truthy) is kept. -/
def listOrEmpty (v : Option (List α)) : List α :=
  v.getD []

/-- `Array.prototype.map`/`flatMap` with the element index, starting at `n`:
the callback receives `(element, index)`. -/
def mapFrom (f : Nat → α → β) : Nat → List α → List β
  | _, [] => []
  | n, a :: as => f n a :: mapFrom f (n + 1) as

/-- Indexed map starting at index 0, as JavaScript `map((x, index) => ...)`. -/
def idxMap (f : Nat → α → β) (l : List α) : List β :=
  mapFrom f 0 l

/-! ## Data model (§3 of the spec: `ResumeRecord`) -/

/-- One entry of `experience` in the JSON schema requested from the remote
service.  Every field is optional: the renderer only checks presence. -/
structure Job where
  title : Option String := none
  dates : Option String := none
  company : Option String := none
  responsibilities : Option (List String) := none
deriving DecidableEq, Repr

/-- One entry of `education` in the JSON schema. -/
structure Education where
  degree : Option String := none
  institution : Option String := none
  year : Option String := none
deriving DecidableEq, Repr

/-- The `skills` object of the JSON schema. -/
structure Skills where
  technical : Option String := none
  core : Option String := none
deriving DecidableEq, Repr

/-- The `personal` object of the JSON schema. -/
structure Personal where
  nationality : Option String := none
  languages : Option String := none
  visaStatus : Option String := none
  other : Option (List String) := none
deriving DecidableEq, Repr

/-- The structured record returned by the Structuring Client and consumed by
`generateWordDocument`.  All fields optional, mirroring that the JavaScript
renderer guards every access with `||`, `?.` or an explicit presence check. -/
structure ResumeRecord where
  name : Option String := none
  location : Option String := none
  phone : Option String := none
  email : Option String := none
  summary : Option (List String) := none
  experience : Option (List Job) := none
  education : Option (List Education) := none
  certifications : Option (List String) := none
  achievements : Option (List String) := none
  skills : Option Skills := none
  personal : Option Personal := none
deriving DecidableEq, Repr

/-! ## Rendered document model (§3: `RenderedDocument`) -/

/-- One styled text run (`new TextRun({...})`): text, half-point size, bold
flag, underline flag. -/
structure TextRun where
  text : String
  size : Nat
  bold : Bool := false
  underline : Bool := false
deriving DecidableEq, Repr

/-- Paragraph alignment (`AlignmentType.*`); left is the docx default used
when the source sets no alignment. -/
inductive Alignment where
  | left
  | center
  | justified
deriving DecidableEq, Repr

/-- One block (`new Paragraph({...})`): runs, alignment, spacing before
(only section headers set it) and after, and membership in the shared
"bullet-list" numbering. -/
structure Block where
  runs : List TextRun
  alignment : Alignment := .left
  spacingBefore : Option Nat := none
  spacingAfter : Nat
  bulleted : Bool := false
deriving DecidableEq, Repr

/-! ## The renderer (`generateWordDocument`, lines 237–530)

Each definition below embeds one contiguous region of the `children` array,
keeping the source's spacing constants, placeholder texts and index
conditions literally. -/

/-- Name block (lines 239–249). -/
def nameBlock (r : ResumeRecord) : Block :=
  { runs := [{ text := jsOr r.name "NAME", size := 32, bold := true }],
    alignment := .center, spacingAfter := 100 }

/-- Location-and-phone block (lines 252–261). -/
def contactBlock (r : ResumeRecord) : Block :=
  { runs := [{ text := jsOr r.location "Location" ++ "|" ++ jsOr r.phone "Phone",
               size := 22 }],
    alignment := .center, spacingAfter := 50 }

/-- Email block (lines 264–274). -/
def emailBlock (r : ResumeRecord) : Block :=
  { runs := [{ text := jsOr r.email "email@example.com", size := 22,
               underline := true }],
    alignment := .center, spacingAfter := 200 }

/-- Summary blocks (lines 277–288): one justified block per paragraph, the
last one with trailing spacing 240, the others 120. -/
def summaryBlocks (s : List String) : List Block :=
  idxMap (fun index para =>
    { runs := [{ text := para, size := 22 }],
      alignment := .justified,
      spacingAfter := if index = s.length - 1 then 240 else 120 }) s

/-- A bold section header (`EXPERIENCE`, `EDUCATON`, ... — lines 291–300 and
analogues): spacing before 120, after 120, size 24. -/
def sectionHeader (t : String) : Block :=
  { runs := [{ text := t, size := 24, bold := true }],
    spacingBefore := some 120, spacingAfter := 120 }

/-- The 41-space literal padding put before the dates on a job's title line
(line 313). -/
def datesPadding : String :=
  "                                         "

/-- Bulleted responsibility blocks of one job (lines 327–341).  `expLen` is
`data.experience.length`, `jobIndex` the job's position.  The last
responsibility gets spacing 120 when another job follows, otherwise 60. -/
def respBlocks (expLen jobIndex : Nat) (resps : List String) : List Block :=
  idxMap (fun respIndex resp =>
    { runs := [{ text := resp, size := 22 }],
      bulleted := true,
      spacingAfter :=
        if respIndex = resps.length - 1 ∧ jobIndex < expLen - 1
        then 120 else 60 }) resps

/-- Blocks of one job (lines 303–342): title+dates line, company line, then
the responsibility bullets. -/
def jobBlocks (expLen jobIndex : Nat) (job : Job) : List Block :=
  { runs := [{ text := jsOr job.title "Job Title", size := 22, bold := true },
             { text := datesPadding ++ jsOr job.dates "Dates", size := 22 }],
    spacingAfter := 60 } ::
  { runs := [{ text := jsOr job.company "Company Name", size := 22 }],
    spacingAfter := 80 } ::
  respBlocks expLen jobIndex (listOrEmpty job.responsibilities)

/-- The whole experience section body (`flatMap` at line 303). -/
def experienceBlocks (jobs : List Job) : List Block :=
  (idxMap (fun jobIndex job => jobBlocks jobs.length jobIndex job) jobs).flatten

/-- Education entries (lines 357–377): a bold degree line then an
"institution | year" line; the last entry's second line gets spacing 180,
the others 120. -/
def educationBlocks (edus : List Education) : List Block :=
  (idxMap (fun index edu =>
    [{ runs := [{ text := jsOr edu.degree "Degree", size := 22, bold := true }],
       spacingAfter := 60 },
     { runs := [{ text := jsOr edu.institution "Institution" ++ " | " ++
                          jsOr edu.year "Year", size := 22 }],
       spacingAfter := if index = edus.length - 1 then 180 else 120 }]) edus).flatten

/-- Certifications section (lines 380–403): emitted only when the list is
present and non-empty; header then one bullet per certification, the last
with spacing 180, the others 60. -/
def certSection (certs : Option (List String)) : List Block :=
  match certs with
  | some l =>
      if 0 < l.length then
        sectionHeader "CERTIFICATIONS" ::
        idxMap (fun index cert =>
          { runs := [{ text := cert, size := 22 }],
            bulleted := true,
            spacingAfter := if index = l.length - 1 then 180 else 60 }) l
      else []
  | none => []

/-- Key-achievements section (lines 406–429), same shape as certifications. -/
def achievementSection (achs : Option (List String)) : List Block :=
  match achs with
  | some l =>
      if 0 < l.length then
        sectionHeader "KEY ACHIEVEMENTS" ::
        idxMap (fun index achievement =>
          { runs := [{ text := achievement, size := 22 }],
            bulleted := true,
            spacingAfter := if index = l.length - 1 then 180 else 60 }) l
      else []
  | none => []

/-- "Technical skills" line (lines 442–456). -/
def technicalBlock (r : ResumeRecord) : Block :=
  { runs := [{ text := "Technical skills: ", size := 22, bold := true },
             { text := jsOr (r.skills.bind Skills.technical) "Skills to be added",
               size := 22 }],
    alignment := .justified, spacingAfter := 100 }

/-- "Core competencies" line (lines 457–471). -/
def coreBlock (r : ResumeRecord) : Block :=
  { runs := [{ text := "Core competencies: ", size := 22, bold := true },
             { text := jsOr (r.skills.bind Skills.core) "Competencies to be added",
               size := 22 }],
    alignment := .justified, spacingAfter := 180 }

/-- Nationality bullet (lines 484–493). -/
def nationalityBlock (r : ResumeRecord) : Block :=
  { runs := [{ text := "Nationality: " ++
                       jsOr (r.personal.bind Personal.nationality) "To be added",
               size := 22 }],
    bulleted := true, spacingAfter := 60 }

/-- Languages bullet (lines 494–505), emitted only when the field is truthy
(present and non-empty). -/
def languagesSection (langs : Option String) : List Block :=
  match langs with
  | some s =>
      if s = "" then []
      else [{ runs := [{ text := "Languages: " ++ s, size := 22 }],
              bulleted := true, spacingAfter := 60 }]
  | none => []

/-- Visa-status bullet (lines 506–517), same guard as languages. -/
def visaSection (visa : Option String) : List Block :=
  match visa with
  | some s =>
      if s = "" then []
      else [{ runs := [{ text := "Visa Status: " ++ s, size := 22 }],
              bulleted := true, spacingAfter := 60 }]
  | none => []

/-- Bullets for `personal.other` (lines 518–529); the index is unused. -/
def otherBlocks (l : List String) : List Block :=
  l.map (fun detail =>
    { runs := [{ text := detail, size := 22 }],
      bulleted := true, spacingAfter := 60 })

/-- The full block sequence of `generateWordDocument` (the `children` array,
lines 237–530), in source order. -/
def render (r : ResumeRecord) : List Block :=
  nameBlock r :: contactBlock r :: emailBlock r ::
  summaryBlocks (listOrEmpty r.summary) ++
  sectionHeader "EXPERIENCE" ::
  experienceBlocks (listOrEmpty r.experience) ++
  sectionHeader "EDUCATON" ::
  educationBlocks (listOrEmpty r.education) ++
  certSection r.certifications ++
  achievementSection r.achievements ++
  sectionHeader "SKILLS" :: technicalBlock r :: coreBlock r ::
  sectionHeader "PERSONAL DETAILS" :: nationalityBlock r ::
  languagesSection (r.personal.bind Personal.languages) ++
  visaSection (r.personal.bind Personal.visaStatus) ++
  otherBlocks (listOrEmpty (r.personal.bind Personal.other))

/-! ## Structuring Client (`callChatGPTAPI`, lines 166–209)

`JSON.parse` is a host builtin, so the model is parametric in a parse
function `parse : List Char → Option J`: `parse s = some j` models a
successful `JSON.parse`, `parse s = none` models a thrown `SyntaxError`.
The response text is a `List Char` because the fallback manipulates
character positions. -/

/-- Index of the first occurrence of `c`, if any. -/
def firstIdxOf (c : Char) : List Char → Option Nat
  | [] => none
  | a :: as => if a = c then some 0 else (firstIdxOf c as).map (· + 1)

/-- Index of the last occurrence of `c`, if any. -/
def lastIdxOf (c : Char) (s : List Char) : Option Nat :=
  match firstIdxOf c s.reverse with
  | some k => some (s.length - 1 - k)
  | none => none

/-- The span matched by the greedy pattern `\{[\s\S]*\}` at line 199: the
first top-level `{...}` span of the text, running from the first `{` to the
last `}`; `none` when the pattern has no match. -/
def braceSpan (s : List Char) : Option (List Char) :=
  match firstIdxOf '{' s, lastIdxOf '}' s with
  | some i, some j => if i < j then some ((s.drop i).take (j - i + 1)) else none
  | _, _ => none

/-- The parse-with-fallback of lines 194–204: try `JSON.parse` on the whole
text; on failure extract the brace span and parse that; `none` when both
attempts fail (the thrown `Error` / rethrown `SyntaxError`). -/
def parseStructured (parse : List Char → Option J) (responseText : List Char) :
    Option J :=
  match parse responseText with
  | some j => some j
  | none =>
      match braceSpan responseText with
      | some span => parse span
      | none => none

/-- The part of an HTTP response that lines 185–192 inspect: `ok`, `status`,
the parsed error body's `error?.message`, and the message content on
success. -/
structure HttpResponse where
  ok : Bool
  status : Nat
  errorMessage : Option String
  content : List Char
deriving DecidableEq, Repr

/-- Outcome of `callChatGPTAPI` after the fetch returns.  `remoteServiceError`
is the throw at line 188 (non-success response); `responseFormatError` covers
both parse-failure throws of lines 194–204 (the explicit `Error` and the
rethrown `SyntaxError`), which the spec's taxonomy groups as
`ResponseFormatError`. -/
inductive ApiOutcome (J : Type) where
  | success (record : J)
  | remoteServiceError (message : String)
  | responseFormatError
deriving DecidableEq

/-- Response handling of `callChatGPTAPI` (lines 185–204): on `!response.ok`
throw `ChatGPT API error: <errorData.error?.message || "HTTP <status>">`;
otherwise parse the message content with the fallback. -/
def callResult (parse : List Char → Option J) (resp : HttpResponse) :
    ApiOutcome J :=
  if resp.ok then
    match parseStructured parse resp.content with
    | some j => .success j
    | none => .responseFormatError
  else
    .remoteServiceError
      ("ChatGPT API error: " ++ jsOr resp.errorMessage ("HTTP " ++ toString resp.status))

/-! ## Helper lemmas about the indexed map -/

theorem mapFrom_length (f : Nat → α → β) (n : Nat) (l : List α) :
    (mapFrom f n l).length = l.length := by
  induction l generalizing n with
  | nil => rfl
  | cons a as ih => simp [mapFrom, ih]

theorem mapFrom_getElem? (f : Nat → α → β) (n i : Nat) (l : List α) :
    (mapFrom f n l)[i]? = l[i]?.map (f (n + i)) := by
  induction l generalizing n i with
  | nil => simp [mapFrom]
  | cons a as ih =>
    cases i with
    | zero => simp [mapFrom]
    | succ k =>
      have he : n + (k + 1) = (n + 1) + k := by omega
      simp only [mapFrom, List.getElem?_cons_succ, ih, he]

theorem idxMap_length (f : Nat → α → β) (l : List α) :
    (idxMap f l).length = l.length :=
  mapFrom_length f 0 l

theorem idxMap_getElem? (f : Nat → α → β) (i : Nat) (l : List α) :
    (idxMap f l)[i]? = l[i]?.map (f i) := by
  rw [idxMap, mapFrom_getElem?, Nat.zero_add]

theorem mapFrom_append (f : Nat → α → β) (n : Nat) (l₁ l₂ : List α) :
    mapFrom f n (l₁ ++ l₂) = mapFrom f n l₁ ++ mapFrom f (n + l₁.length) l₂ := by
  induction l₁ generalizing n with
  | nil => simp [mapFrom]
  | cons a as ih =>
    have he : n + (as.length + 1) = (n + 1) + as.length := by omega
    simp only [List.cons_append, mapFrom, List.length_cons, he]
    show f n a :: mapFrom f (n + 1) (as ++ l₂) = _
    rw [ih]

theorem forall_mem_mapFrom {f : Nat → α → β} {P : β → Prop}
    (hf : ∀ i a, P (f i a)) (n : Nat) (l : List α) :
    ∀ b ∈ mapFrom f n l, P b := by
  induction l generalizing n with
  | nil => intro b hb; cases hb
  | cons a as ih =>
    intro b hb
    rcases hb with _ | ⟨_, hb⟩
    · exact hf n a
    · exact ih (n + 1) b hb

theorem forall_mem_idxMap {f : Nat → α → β} {P : β → Prop}
    (hf : ∀ i a, P (f i a)) (l : List α) :
    ∀ b ∈ idxMap f l, P b :=
  forall_mem_mapFrom hf 0 l

theorem length_summaryBlocks (s : List String) :
    (summaryBlocks s).length = s.length :=
  idxMap_length _ s

/-- The record with every optional field absent. -/
def emptyRecord : ResumeRecord := {}

/-- `render` split at the summary section: the three head blocks, then the
summary blocks, then the rest beginning with the "EXPERIENCE" header. -/
theorem render_summary_split (r : ResumeRecord) (s : List String)
    (hs : r.summary = some s) :
    render r =
      [nameBlock r, contactBlock r, emailBlock r] ++
      (summaryBlocks s ++ sectionHeader "EXPERIENCE" ::
        (experienceBlocks (listOrEmpty r.experience) ++
         sectionHeader "EDUCATON" :: (educationBlocks (listOrEmpty r.education) ++
         certSection r.certifications ++ achievementSection r.achievements ++
         sectionHeader "SKILLS" :: technicalBlock r :: coreBlock r ::
         sectionHeader "PERSONAL DETAILS" :: nationalityBlock r ::
         languagesSection (r.personal.bind Personal.languages) ++
         visaSection (r.personal.bind Personal.visaStatus) ++
         otherBlocks (listOrEmpty (r.personal.bind Personal.other))))) := by
  unfold render
  rw [hs]
  simp [listOrEmpty]

/-- C2: for a record whose summary is the list `s` of paragraphs, `render`
puts at positions `3 + i` (for `i < s.length`) exactly the justified summary
blocks in input order, paragraphs before the last with trailing spacing 120
and the last with 240, and the block right after the summary (position
`3 + s.length`) is already the "EXPERIENCE" header — so exactly `s.length`
summary blocks are emitted. -/
theorem summary_spacing (r : ResumeRecord) (s : List String)
    (hs : r.summary = some s) :
    (∀ i (hi : i < s.length),
      (render r)[3 + i]? =
        some { runs := [{ text := s[i], size := 22 }], alignment := .justified,
               spacingAfter := if i = s.length - 1 then 240 else 120 }) ∧
    (render r)[3 + s.length]? = some (sectionHeader "EXPERIENCE") := by
  have hr := render_summary_split r s hs
  constructor
  · intro i hi
    rw [hr, List.getElem?_append]
    have h3 : ¬ 3 + i < ([nameBlock r, contactBlock r, emailBlock r] : List Block).length := by
      simp
    rw [if_neg h3]
    have h3' : 3 + i - ([nameBlock r, contactBlock r, emailBlock r] : List Block).length = i := by
      simp
    rw [h3', List.getElem?_append]
    have hlen : i < (summaryBlocks s).length := by rw [length_summaryBlocks]; exact hi
    rw [if_pos hlen]
    rw [summaryBlocks, idxMap_getElem?, List.getElem?_eq_getElem hi]
    rfl
  · rw [hr, List.getElem?_append]
    have h3 : ¬ 3 + s.length < ([nameBlock r, contactBlock r, emailBlock r] : List Block).length := by
      simp
    rw [if_neg h3]
    have h3' : 3 + s.length - ([nameBlock r, contactBlock r, emailBlock r] : List Block).length = s.length := by
      simp
    rw [h3', List.getElem?_append]
    have hlen : ¬ s.length < (summaryBlocks s).length := by
      rw [length_summaryBlocks]; exact Nat.lt_irrefl _
    rw [if_neg hlen, length_summaryBlocks, Nat.sub_self]
    simp

/-- Witness for C2 at the record whose summary is `["a", "b"]`: paragraph 1
gets spacing 120, paragraph 2 gets 240, and position 5 is the "EXPERIENCE"
header. -/
theorem summary_spacing_witness :
    (render { summary := some ["a", "b"] })[3]? =
      some { runs := [{ text := "a", size := 22 }], alignment := .justified,
             spacingAfter := 120 } ∧
    (render { summary := some ["a", "b"] })[4]? =
      some { runs := [{ text := "b", size := 22 }], alignment := .justified,
             spacingAfter := 240 } ∧
    (render { summary := some ["a", "b"] })[5]? = some (sectionHeader "EXPERIENCE") := by
  have h := summary_spacing { summary := some ["a", "b"] } ["a", "b"] rfl
  refine ⟨?_, ?_, h.2⟩
  · have := h.1 0 (by decide)
    simpa using this
  · have := h.1 1 (by decide)
    simpa using this

/-- The experience section body sits inside `render` whenever the record's
experience list is present. -/
theorem experienceBlocks_infix_render (r : ResumeRecord) (jobs : List Job)
    (hr : r.experience = some jobs) :
    List.IsInfix (experienceBlocks jobs) (render r) := by
  refine ⟨nameBlock r :: contactBlock r :: emailBlock r ::
    (summaryBlocks (listOrEmpty r.summary) ++ [sectionHeader "EXPERIENCE"]),
    sectionHeader "EDUCATON" :: (educationBlocks (listOrEmpty r.education) ++
      certSection r.certifications ++ achievementSection r.achievements ++
      sectionHeader "SKILLS" :: technicalBlock r :: coreBlock r ::
      sectionHeader "PERSONAL DETAILS" :: nationalityBlock r ::
      languagesSection (r.personal.bind Personal.languages) ++
      visaSection (r.personal.bind Personal.visaStatus) ++
      otherBlocks (listOrEmpty (r.personal.bind Personal.other))), ?_⟩
  simp only [render, hr]
  simp [listOrEmpty, List.append_assoc]

/-- C1: for a job at position `jobIndex` of the record's experience list with
responsibilities `resps`, the bulleted block of responsibility `i` (position
`2 + i` of the job's blocks, after the title line and the company line) gets
trailing spacing 120 exactly when it is the job's last responsibility and
another job follows, and 60 otherwise — in particular the last responsibility
of the final job gets 60; and the job's blocks occur inside `render r`. -/
theorem responsibilities_spacing (r : ResumeRecord) (jobs : List Job)
    (jobIndex : Nat) (job : Job) (resps : List String)
    (hr : r.experience = some jobs)
    (hj : jobs[jobIndex]? = some job)
    (hresp : job.responsibilities = some resps) :
    (∀ i (hi : i < resps.length),
      (jobBlocks jobs.length jobIndex job)[2 + i]? =
        some { runs := [{ text := resps[i], size := 22 }], bulleted := true,
               spacingAfter :=
                 if i = resps.length - 1 ∧ jobIndex + 1 < jobs.length
                 then 120 else 60 }) ∧
    List.IsInfix (jobBlocks jobs.length jobIndex job) (render r) := by
  constructor
  · intro i hi
    have h2 : 2 + i = (i + 1) + 1 := by omega
    rw [jobBlocks, h2, List.getElem?_cons_succ, List.getElem?_cons_succ,
      hresp]
    show (respBlocks jobs.length jobIndex resps)[i]? = _
    rw [respBlocks, idxMap_getElem?, List.getElem?_eq_getElem hi]
    have hcond : (i = resps.length - 1 ∧ jobIndex < jobs.length - 1) ↔
        (i = resps.length - 1 ∧ jobIndex + 1 < jobs.length) := by omega
    simp [hcond]
  · have hmem : jobBlocks jobs.length jobIndex job ∈
        idxMap (fun jobIndex job => jobBlocks jobs.length jobIndex job) jobs := by
      have h := idxMap_getElem?
        (fun jobIndex job => jobBlocks jobs.length jobIndex job) jobIndex jobs
      rw [hj] at h
      obtain ⟨hlt, he⟩ := List.getElem?_eq_some.mp h
      have hmem' := List.getElem_mem hlt
      rw [he] at hmem'
      simpa using hmem'
    exact (List.infix_of_mem_flatten hmem).trans
      (experienceBlocks_infix_render r jobs hr)

/-- First job of the two-job witness record: two responsibilities. -/
def jobA : Job := { responsibilities := some ["r1", "r2"] }

/-- Second (final) job of the two-job witness record: one responsibility. -/
def jobB : Job := { responsibilities := some ["r3"] }

/-- Witness for C1 at a record with two jobs: the last responsibility of the
first job gets spacing 120 (a job follows), the first responsibility of the
first job and the last responsibility of the final job get 60, and the first
job's blocks occur inside the rendered document. -/
theorem responsibilities_spacing_witness :
    (jobBlocks 2 0 jobA)[3]? =
      some { runs := [{ text := "r2", size := 22 }], bulleted := true,
             spacingAfter := 120 } ∧
    (jobBlocks 2 0 jobA)[2]? =
      some { runs := [{ text := "r1", size := 22 }], bulleted := true,
             spacingAfter := 60 } ∧
    (jobBlocks 2 1 jobB)[2]? =
      some { runs := [{ text := "r3", size := 22 }], bulleted := true,
             spacingAfter := 60 } ∧
    List.IsInfix (jobBlocks 2 0 jobA)
      (render { experience := some [jobA, jobB] }) := by
  have hA := responsibilities_spacing { experience := some [jobA, jobB] }
    [jobA, jobB] 0 jobA ["r1", "r2"] rfl rfl rfl
  have hB := responsibilities_spacing { experience := some [jobA, jobB] }
    [jobA, jobB] 1 jobB ["r3"] rfl rfl rfl
  refine ⟨?_, ?_, ?_, hA.2⟩
  · have := hA.1 1 (by decide)
    simpa using this
  · have := hA.1 0 (by decide)
    simpa using this
  · have := hB.1 0 (by decide)
    simpa using this

/-- A job whose responsibilities list is absent renders exactly like one
whose responsibilities list is empty. -/
theorem jobBlocks_resp_none_eq (len i : Nat) (job : Job) :
    jobBlocks len i { job with responsibilities := none } =
    jobBlocks len i { job with responsibilities := some [] } := by
  simp [jobBlocks, respBlocks, listOrEmpty, idxMap, mapFrom]

/-- C3: for every record and every collection-valued field, rendering with
the field absent gives exactly the same block sequence as rendering with the
field set to the empty list (and `render` is total, so neither case fails). -/
theorem absent_collection_eq_empty (r : ResumeRecord) :
    render { r with summary := none } = render { r with summary := some [] } ∧
    render { r with experience := none } = render { r with experience := some [] } ∧
    render { r with education := none } = render { r with education := some [] } ∧
    render { r with certifications := none } =
      render { r with certifications := some [] } ∧
    render { r with achievements := none } =
      render { r with achievements := some [] } ∧
    (∀ p : Personal,
      render { r with personal := some { p with other := none } } =
      render { r with personal := some { p with other := some [] } }) ∧
    (∀ (pre post : List Job) (job : Job),
      render { r with experience := some (pre ++ { job with responsibilities := none } :: post) } =
      render { r with experience := some (pre ++ { job with responsibilities := some [] } :: post) }) :=
  by
  refine ⟨?_, ?_, ?_, ?_, ?_, ?_, ?_⟩
  · simp [render, nameBlock, contactBlock, emailBlock, technicalBlock, coreBlock,
      nationalityBlock, listOrEmpty]
  · simp [render, nameBlock, contactBlock, emailBlock, technicalBlock, coreBlock,
      nationalityBlock, listOrEmpty, experienceBlocks, idxMap, mapFrom]
  · simp [render, nameBlock, contactBlock, emailBlock, technicalBlock, coreBlock,
      nationalityBlock, listOrEmpty, educationBlocks, idxMap, mapFrom]
  · simp [render, nameBlock, contactBlock, emailBlock, technicalBlock, coreBlock,
      nationalityBlock, certSection]
  · simp [render, nameBlock, contactBlock, emailBlock, technicalBlock, coreBlock,
      nationalityBlock, achievementSection]
  · intro p
    simp [render, nameBlock, contactBlock, emailBlock, technicalBlock, coreBlock,
      nationalityBlock, listOrEmpty, otherBlocks]
  · intro pre post job
    have hexp : experienceBlocks (pre ++ { job with responsibilities := none } :: post) =
        experienceBlocks (pre ++ { job with responsibilities := some [] } :: post) := by
      simp only [experienceBlocks, idxMap, mapFrom_append, mapFrom,
        List.length_append, List.length_cons, Nat.zero_add,
        jobBlocks_resp_none_eq]
    simp [render, nameBlock, contactBlock, emailBlock, technicalBlock, coreBlock,
      nationalityBlock, listOrEmpty, hexp]

/-- Witness for C3 at the empty record: absent summary renders like an empty
summary list. -/
theorem absent_collection_eq_empty_witness :
    render { emptyRecord with summary := none } =
    render { emptyRecord with summary := some [] } :=
  (absent_collection_eq_empty emptyRecord).1

/-- C6: rendering the record with every optional field absent yields exactly
the ten documented blocks — the placeholder texts `"NAME"`,
`"Location|Phone"`, `"email@example.com"`, `"Skills to be added"`,
`"Competencies to be added"` and `"Nationality: To be added"`, with no
"CERTIFICATIONS" or "KEY ACHIEVEMENTS" header or bullets — and in general the
certifications / achievements sections are non-empty exactly when the
respective list is present and non-empty. -/
theorem placeholders_and_optional_sections :
    render emptyRecord =
      [{ runs := [{ text := "NAME", size := 32, bold := true }],
         alignment := .center, spacingAfter := 100 },
       { runs := [{ text := "Location|Phone", size := 22 }],
         alignment := .center, spacingAfter := 50 },
       { runs := [{ text := "email@example.com", size := 22, underline := true }],
         alignment := .center, spacingAfter := 200 },
       { runs := [{ text := "EXPERIENCE", size := 24, bold := true }],
         spacingBefore := some 120, spacingAfter := 120 },
       { runs := [{ text := "EDUCATON", size := 24, bold := true }],
         spacingBefore := some 120, spacingAfter := 120 },
       { runs := [{ text := "SKILLS", size := 24, bold := true }],
         spacingBefore := some 120, spacingAfter := 120 },
       { runs := [{ text := "Technical skills: ", size := 22, bold := true },
                  { text := "Skills to be added", size := 22 }],
         alignment := .justified, spacingAfter := 100 },
       { runs := [{ text := "Core competencies: ", size := 22, bold := true },
                  { text := "Competencies to be added", size := 22 }],
         alignment := .justified, spacingAfter := 180 },
       { runs := [{ text := "PERSONAL DETAILS", size := 24, bold := true }],
         spacingBefore := some 120, spacingAfter := 120 },
       { runs := [{ text := "Nationality: To be added", size := 22 }],
         bulleted := true, spacingAfter := 60 }] ∧
    (∀ certs : Option (List String),
      certSection certs ≠ [] ↔ ∃ l, certs = some l ∧ l ≠ []) ∧
    (∀ achs : Option (List String),
      achievementSection achs ≠ [] ↔ ∃ l, achs = some l ∧ l ≠ []) := by
  refine ⟨by decide, ?_, ?_⟩
  · intro certs
    match certs with
    | none => simp [certSection]
    | some [] => simp [certSection]
    | some (c :: cs) => simp [certSection]
  · intro achs
    match achs with
    | none => simp [achievementSection]
    | some [] => simp [achievementSection]
    | some (a :: as) => simp [achievementSection]

/-- Witness for C6: a singleton certifications list makes the certifications
section non-empty. -/
theorem placeholders_and_optional_sections_witness :
    certSection (some ["c"]) ≠ [] :=
  (placeholders_and_optional_sections.2.1 (some ["c"])).mpr ⟨["c"], rfl, by decide⟩

/-- The record of the C7 scenario: lower-case name, a one-paragraph summary,
empty experience and education, empty skills and personal objects. -/
def janeRecord : ResumeRecord :=
  { name := some "jane doe", summary := some ["a"], experience := some [],
    education := some [], skills := some {}, personal := some {} }

/-- C7: rendering `janeRecord` gives exactly these eleven blocks: the name
block's text is the literal input string `"jane doe"` (no upper-casing), and
the "EXPERIENCE" and "EDUCATON" headers (the latter with its exact misspelled
byte content) appear adjacently, with no entry blocks under either. -/
theorem literal_name_and_headers :
    render janeRecord =
      [{ runs := [{ text := "jane doe", size := 32, bold := true }],
         alignment := .center, spacingAfter := 100 },
       { runs := [{ text := "Location|Phone", size := 22 }],
         alignment := .center, spacingAfter := 50 },
       { runs := [{ text := "email@example.com", size := 22, underline := true }],
         alignment := .center, spacingAfter := 200 },
       { runs := [{ text := "a", size := 22 }],
         alignment := .justified, spacingAfter := 240 },
       { runs := [{ text := "EXPERIENCE", size := 24, bold := true }],
         spacingBefore := some 120, spacingAfter := 120 },
       { runs := [{ text := "EDUCATON", size := 24, bold := true }],
         spacingBefore := some 120, spacingAfter := 120 },
       { runs := [{ text := "SKILLS", size := 24, bold := true }],
         spacingBefore := some 120, spacingAfter := 120 },
       { runs := [{ text := "Technical skills: ", size := 22, bold := true },
                  { text := "Skills to be added", size := 22 }],
         alignment := .justified, spacingAfter := 100 },
       { runs := [{ text := "Core competencies: ", size := 22, bold := true },
                  { text := "Competencies to be added", size := 22 }],
         alignment := .justified, spacingAfter := 180 },
       { runs := [{ text := "PERSONAL DETAILS", size := 24, bold := true }],
         spacingBefore := some 120, spacingAfter := 120 },
       { runs := [{ text := "Nationality: To be added", size := 22 }],
         bulleted := true, spacingAfter := 60 }] := by
  decide

/-- The eight trailing-spacing constants that occur in `generateWordDocument`:
50, 60, 80, 100, 120, 180, 200 and 240. -/
def fixedSpacings : List Nat := [50, 60, 80, 100, 120, 180, 200, 240]

theorem summary_spacing_mem (s : List String) :
    ∀ p ∈ summaryBlocks s, p.spacingAfter ∈ fixedSpacings := by
  unfold summaryBlocks
  exact forall_mem_idxMap
    (fun i a => by
      show (if i = s.length - 1 then 240 else 120) ∈ fixedSpacings
      split <;> decide) s

theorem respBlocks_spacing_mem (expLen jobIndex : Nat) (resps : List String) :
    ∀ p ∈ respBlocks expLen jobIndex resps, p.spacingAfter ∈ fixedSpacings := by
  unfold respBlocks
  exact forall_mem_idxMap
    (fun i a => by
      show (if i = resps.length - 1 ∧ jobIndex < expLen - 1 then 120 else 60) ∈
        fixedSpacings
      split <;> decide) resps

theorem jobBlocks_spacing_mem (expLen jobIndex : Nat) (job : Job) :
    ∀ p ∈ jobBlocks expLen jobIndex job, p.spacingAfter ∈ fixedSpacings := by
  unfold jobBlocks
  refine List.forall_mem_cons.mpr ⟨?_, List.forall_mem_cons.mpr ⟨?_, ?_⟩⟩
  · show (60 : Nat) ∈ fixedSpacings
    decide
  · show (80 : Nat) ∈ fixedSpacings
    decide
  · exact respBlocks_spacing_mem expLen jobIndex _

theorem experienceBlocks_spacing_mem (jobs : List Job) :
    ∀ p ∈ experienceBlocks jobs, p.spacingAfter ∈ fixedSpacings := by
  intro p hp
  rw [experienceBlocks, List.mem_flatten] at hp
  obtain ⟨l, hl, hpl⟩ := hp
  exact forall_mem_idxMap (P := fun l => ∀ p ∈ l, p.spacingAfter ∈ fixedSpacings)
    (fun i a => jobBlocks_spacing_mem jobs.length i a) jobs l hl p hpl

theorem educationBlocks_spacing_mem (edus : List Education) :
    ∀ p ∈ educationBlocks edus, p.spacingAfter ∈ fixedSpacings := by
  intro p hp
  rw [educationBlocks, List.mem_flatten] at hp
  obtain ⟨l, hl, hpl⟩ := hp
  refine forall_mem_idxMap (P := fun l => ∀ p ∈ l, p.spacingAfter ∈ fixedSpacings)
    (fun i a => ?_) edus l hl p hpl
  refine List.forall_mem_cons.mpr ⟨?_, List.forall_mem_cons.mpr ⟨?_, by simp⟩⟩
  · show (60 : Nat) ∈ fixedSpacings
    decide
  · show (if i = edus.length - 1 then 180 else 120) ∈ fixedSpacings
    split <;> decide

theorem certSection_spacing_mem (certs : Option (List String)) :
    ∀ p ∈ certSection certs, p.spacingAfter ∈ fixedSpacings := by
  intro p hp
  match certs with
  | none => cases hp
  | some [] => simp [certSection] at hp
  | some (c :: cs) =>
    have he : certSection (some (c :: cs)) =
        sectionHeader "CERTIFICATIONS" ::
        idxMap (fun index cert =>
          { runs := [{ text := cert, size := 22 }], bulleted := true,
            spacingAfter := if index = (c :: cs).length - 1 then 180 else 60 })
          (c :: cs) := by
      simp [certSection]
    rw [he] at hp
    rcases hp with _ | ⟨_, hp⟩
    · show (120 : Nat) ∈ fixedSpacings
      decide
    · exact forall_mem_idxMap (P := fun b => b.spacingAfter ∈ fixedSpacings)
        (fun i a => by
          show (if i = (c :: cs).length - 1 then 180 else 60) ∈ fixedSpacings
          split <;> decide) (c :: cs) p hp

theorem achievementSection_spacing_mem (achs : Option (List String)) :
    ∀ p ∈ achievementSection achs, p.spacingAfter ∈ fixedSpacings := by
  intro p hp
  match achs with
  | none => cases hp
  | some [] => simp [achievementSection] at hp
  | some (a :: as) =>
    have he : achievementSection (some (a :: as)) =
        sectionHeader "KEY ACHIEVEMENTS" ::
        idxMap (fun index achievement =>
          { runs := [{ text := achievement, size := 22 }], bulleted := true,
            spacingAfter := if index = (a :: as).length - 1 then 180 else 60 })
          (a :: as) := by
      simp [achievementSection]
    rw [he] at hp
    rcases hp with _ | ⟨_, hp⟩
    · show (120 : Nat) ∈ fixedSpacings
      decide
    · exact forall_mem_idxMap (P := fun b => b.spacingAfter ∈ fixedSpacings)
        (fun i a => by
          show (if i = (a :: as).length - 1 then 180 else 60) ∈ fixedSpacings
          split <;> decide) (a :: as) p hp

theorem languagesSection_spacing_mem (v : Option String) :
    ∀ p ∈ languagesSection v, p.spacingAfter ∈ fixedSpacings := by
  intro p hp
  match v with
  | none => cases hp
  | some s =>
    by_cases hs : s = ""
    · simp [languagesSection, hs] at hp
    · simp only [languagesSection, if_neg hs, List.mem_singleton] at hp
      subst hp
      show (60 : Nat) ∈ fixedSpacings
      decide

theorem visaSection_spacing_mem (v : Option String) :
    ∀ p ∈ visaSection v, p.spacingAfter ∈ fixedSpacings := by
  intro p hp
  match v with
  | none => cases hp
  | some s =>
    by_cases hs : s = ""
    · simp [visaSection, hs] at hp
    · simp only [visaSection, if_neg hs, List.mem_singleton] at hp
      subst hp
      show (60 : Nat) ∈ fixedSpacings
      decide

theorem otherBlocks_spacing_mem (l : List String) :
    ∀ p ∈ otherBlocks l, p.spacingAfter ∈ fixedSpacings := by
  intro p hp
  rw [otherBlocks, List.mem_map] at hp
  obtain ⟨a, _, rfl⟩ := hp
  show (60 : Nat) ∈ fixedSpacings
  decide

/-- C8 counterexample: it is not the case that the trailing-spacing values of
all rendered blocks are drawn from just two constants — already on the empty
record, the name block (100), the contact block (50) and the email block
(200) use three distinct values. -/
theorem two_spacing_constants_false :
    ¬ ∃ a b : Nat, ∀ (r : ResumeRecord), ∀ p ∈ render r,
      p.spacingAfter = a ∨ p.spacingAfter = b := by
  rintro ⟨a, b, h⟩
  have h100 := h emptyRecord (nameBlock emptyRecord) (by decide)
  have h50 := h emptyRecord (contactBlock emptyRecord) (by decide)
  have h200 := h emptyRecord (emailBlock emptyRecord) (by decide)
  have e100 : (nameBlock emptyRecord).spacingAfter = 100 := rfl
  have e50 : (contactBlock emptyRecord).spacingAfter = 50 := rfl
  have e200 : (emailBlock emptyRecord).spacingAfter = 200 := rfl
  rw [e100] at h100
  rw [e50] at h50
  rw [e200] at h200
  rcases h100 with h1 | h1 <;> rcases h50 with h2 | h2 <;>
    rcases h200 with h3 | h3 <;> omega

/-- C8 amended: for every record, every rendered block's trailing spacing is
drawn from the fixed set of eight constants
{50, 60, 80, 100, 120, 180, 200, 240}, independent of the record. -/
theorem spacing_from_fixed_set (r : ResumeRecord) :
    ∀ p ∈ render r, p.spacingAfter ∈ fixedSpacings := by
  unfold render
  simp only [List.forall_mem_append, List.forall_mem_cons]
  refine ⟨⟨⟨⟨⟨⟨⟨⟨?_, ?_, ?_, ?_⟩, ?_, ?_⟩, ?_, ?_⟩, ?_⟩, ?_⟩, ?_, ?_, ?_, ?_, ?_, ?_⟩, ?_⟩, ?_⟩
  · show (100 : Nat) ∈ fixedSpacings
    decide
  · show (50 : Nat) ∈ fixedSpacings
    decide
  · show (200 : Nat) ∈ fixedSpacings
    decide
  · exact summary_spacing_mem _
  · show (120 : Nat) ∈ fixedSpacings
    decide
  · exact experienceBlocks_spacing_mem _
  · show (120 : Nat) ∈ fixedSpacings
    decide
  · exact educationBlocks_spacing_mem _
  · exact certSection_spacing_mem _
  · exact achievementSection_spacing_mem _
  · show (120 : Nat) ∈ fixedSpacings
    decide
  · show (100 : Nat) ∈ fixedSpacings
    decide
  · show (180 : Nat) ∈ fixedSpacings
    decide
  · show (120 : Nat) ∈ fixedSpacings
    decide
  · show (60 : Nat) ∈ fixedSpacings
    decide
  · exact languagesSection_spacing_mem _
  · exact visaSection_spacing_mem _
  · exact otherBlocks_spacing_mem _

/-- Witness for the amended C8 at the empty record: the name block's spacing
is one of the eight constants. -/
theorem spacing_from_fixed_set_witness :
    (nameBlock emptyRecord).spacingAfter ∈ fixedSpacings :=
  spacing_from_fixed_set emptyRecord (nameBlock emptyRecord) (by decide)

/-- C9: `render` is deterministic and pure — it is a function of the record
alone, so byte-for-byte identical records give identical block sequences. -/
theorem render_deterministic (r₁ r₂ : ResumeRecord) (h : r₁ = r₂) :
    render r₁ = render r₂ := by
  rw [h]

/-- Witness for C9 at the empty record. -/
theorem render_deterministic_witness :
    render emptyRecord = render emptyRecord :=
  render_deterministic emptyRecord emptyRecord rfl

/-- C10: a present-but-empty `personal.languages` (resp. `personal.visaStatus`)
renders exactly like an absent one: the corresponding bulleted block is
omitted and the whole block sequence equals the absent-field one. -/
theorem empty_string_personal_fields (r : ResumeRecord) (p : Personal) :
    render { r with personal := some { p with languages := some "" } } =
      render { r with personal := some { p with languages := none } } ∧
    render { r with personal := some { p with visaStatus := some "" } } =
      render { r with personal := some { p with visaStatus := none } } ∧
    languagesSection (some "") = [] ∧ languagesSection none = [] ∧
    visaSection (some "") = [] ∧ visaSection none = [] := by
  refine ⟨?_, ?_, rfl, rfl, rfl, rfl⟩
  · simp [render, nameBlock, contactBlock, emailBlock, technicalBlock, coreBlock,
      nationalityBlock, languagesSection, listOrEmpty]
  · simp [render, nameBlock, contactBlock, emailBlock, technicalBlock, coreBlock,
      nationalityBlock, visaSection, listOrEmpty]

/-- Witness for C10: concrete records with an empty and an absent languages
field render identically. -/
theorem empty_string_personal_fields_witness :
    render { personal := some { languages := some "" } } =
    render { personal := some { languages := none } } := by
  have h := (empty_string_personal_fields emptyRecord ({} : Personal)).1
  simpa using h

/-! ## Lemmas about the brace-span extraction -/

theorem firstIdxOf_cons_self (c : Char) (l : List Char) :
    firstIdxOf c (c :: l) = some 0 := by
  simp [firstIdxOf]

theorem firstIdxOf_append_of_not_mem (c : Char) {p : List Char} (hp : c ∉ p)
    (q : List Char) :
    firstIdxOf c (p ++ q) = (firstIdxOf c q).map (· + p.length) := by
  induction p with
  | nil =>
    cases hq : firstIdxOf c q <;> simp [hq]
  | cons a as ih =>
    have ha : ¬ a = c := fun h => hp (h ▸ List.mem_cons_self a as)
    have has : c ∉ as := fun h => hp (List.mem_cons_of_mem a h)
    cases hq : firstIdxOf c q with
    | none => simp [firstIdxOf, ha, ih has, hq]
    | some k =>
      simp [firstIdxOf, ha, ih has, hq]
      omega

/-- The greedy pattern on a text with a brace-free prefix and a brace-free
suffix around a `{...}` span matches exactly that span: from the first `{`
to the last `}`. -/
theorem braceSpan_concat (p1 body p2 : List Char)
    (h1 : '{' ∉ p1) (h2 : '}' ∉ p2) :
    braceSpan (p1 ++ '{' :: (body ++ '}' :: p2)) =
      some ('{' :: (body ++ ['}'])) := by
  have hfirst : firstIdxOf '{' (p1 ++ '{' :: (body ++ '}' :: p2)) = some p1.length := by
    rw [firstIdxOf_append_of_not_mem '{' h1, firstIdxOf_cons_self]
    simp
  have hrev : (p1 ++ '{' :: (body ++ '}' :: p2)).reverse =
      p2.reverse ++ '}' :: (body.reverse ++ '{' :: p1.reverse) := by
    simp
  have h2r : '}' ∉ p2.reverse := by simpa using h2
  have hrevfirst : firstIdxOf '}' (p1 ++ '{' :: (body ++ '}' :: p2)).reverse =
      some p2.length := by
    rw [hrev, firstIdxOf_append_of_not_mem '}' h2r, firstIdxOf_cons_self]
    simp
  have hlen : (p1 ++ '{' :: (body ++ '}' :: p2)).length =
      p1.length + 1 + body.length + 1 + p2.length := by
    simp
    omega
  have hlast : lastIdxOf '}' (p1 ++ '{' :: (body ++ '}' :: p2)) =
      some (p1.length + 1 + body.length) := by
    rw [lastIdxOf, hrevfirst]
    show some ((p1 ++ '{' :: (body ++ '}' :: p2)).length - 1 - p2.length) = _
    rw [hlen]
    congr 1
    omega
  rw [braceSpan, hfirst, hlast]
  have hij : p1.length < p1.length + 1 + body.length := by omega
  show (if p1.length < p1.length + 1 + body.length then
      some (List.take (p1.length + 1 + body.length - p1.length + 1)
        (List.drop p1.length (p1 ++ '{' :: (body ++ '}' :: p2)))) else none) = _
  rw [if_pos hij]
  have hd : (p1 ++ '{' :: (body ++ '}' :: p2)).drop p1.length =
      '{' :: (body ++ '}' :: p2) :=
    List.drop_left p1 _
  rw [hd]
  have ht : p1.length + 1 + body.length - p1.length + 1 = body.length + 2 := by
    omega
  rw [ht]
  have hsplit : '{' :: (body ++ '}' :: p2) = ('{' :: (body ++ ['}'])) ++ p2 := by
    simp
  rw [hsplit]
  have hlen2 : ('{' :: (body ++ ['}'])).length = body.length + 2 := by
    simp
  rw [← hlen2, List.take_left]

/-- C4: the parse-with-fallback of `structure`: a directly parsable text is
returned as parsed; on direct-parse failure the first top-level `{...}` span
(first `{` to last `}`, as the greedy pattern matches) is located and its
parse returned; when both attempts fail (no span, or the span itself fails to
parse — `parse span = none` in the second conjunct) the result is the format
failure `none`.  In particular, for a text made of one brace-delimited span of
parsable content surrounded by brace-free prose, parsing succeeds by
extracting that span. -/
theorem parse_with_brace_fallback (J : Type) (parse : List Char → Option J) :
    (∀ s j, parse s = some j → parseStructured parse s = some j) ∧
    (∀ s span, parse s = none → braceSpan s = some span →
      parseStructured parse s = parse span) ∧
    (∀ s, parse s = none → braceSpan s = none → parseStructured parse s = none) ∧
    (∀ p1 body p2 j, '{' ∉ p1 → '}' ∉ p2 →
      parse (p1 ++ '{' :: (body ++ '}' :: p2)) = none →
      parse ('{' :: (body ++ ['}'])) = some j →
      parseStructured parse (p1 ++ '{' :: (body ++ '}' :: p2)) = some j) := by
  refine ⟨?_, ?_, ?_, ?_⟩
  · intro s j h
    simp [parseStructured, h]
  · intro s span h hb
    simp [parseStructured, h, hb]
  · intro s h hb
    simp [parseStructured, h, hb]
  · intro p1 body p2 j hp1 hp2 hfail hok
    have hb := braceSpan_concat p1 body p2 hp1 hp2
    simp [parseStructured, hfail, hb, hok]

/-- A parse function for the C4 witness: accepts exactly the text `{1}`. -/
def toyParse : List Char → Option Nat :=
  fun s => if s = ['{', '1', '}'] then some 1 else none

/-- Witness for C4: the text `a{1}b` fails direct parsing, and the fallback
extracts and parses the span `{1}`. -/
theorem parse_with_brace_fallback_witness :
    parseStructured toyParse (['a'] ++ '{' :: (['1'] ++ '}' :: ['b'])) = some 1 := by
  refine (parse_with_brace_fallback Nat toyParse).2.2.2 ['a'] ['1'] ['b'] 1
    ?_ ?_ ?_ ?_
  · decide
  · decide
  · decide
  · decide

/-! ## C5: the non-success branch of the remote call -/

/-- Substring test: `containsSub pat s` is true when `pat` occurs
contiguously in `s`. -/
def containsSub (pat : List Char) : List Char → Bool
  | [] => pat.isEmpty
  | a :: as => pat.isPrefixOf (a :: as) || containsSub pat as

/-- The HTTP 401 response of the C5 scenario, whose error body carries the
upstream message. -/
def resp401 : HttpResponse :=
  { ok := false, status := 401,
    errorMessage := some "Incorrect API key provided", content := [] }

/-- C5 counterexample: on the 401 response with upstream message
"Incorrect API key provided", the failure message is exactly
`ChatGPT API error: Incorrect API key provided` — it contains the upstream
message but not the upstream status `401`, so the error does not carry both. -/
theorem remote_error_carries_no_status :
    callResult (fun _ => (none : Option Unit)) resp401 =
      .remoteServiceError "ChatGPT API error: Incorrect API key provided" ∧
    containsSub "401".toList
      "ChatGPT API error: Incorrect API key provided".toList = false ∧
    containsSub "Incorrect API key provided".toList
      "ChatGPT API error: Incorrect API key provided".toList = true := by
  refine ⟨by decide, by decide, by decide⟩

/-- C5 amended: on every non-success response the call fails with the
remote-service error whose message is `ChatGPT API error: ` followed by the
upstream error message when present and non-empty, otherwise by
`HTTP <status>`; no record is returned. -/
theorem remote_error_message (J : Type) (parse : List Char → Option J)
    (resp : HttpResponse) (h : resp.ok = false) :
    callResult parse resp =
      .remoteServiceError
        ("ChatGPT API error: " ++
          jsOr resp.errorMessage ("HTTP " ++ toString resp.status)) ∧
    ∀ j, callResult parse resp ≠ .success j := by
  constructor
  · simp [callResult, h]
  · intro j hj
    simp [callResult, h] at hj

/-- Witness for the amended C5: with the message absent the failure message
falls back to the status (`HTTP 404`), and with the message present it is the
message alone. -/
theorem remote_error_message_witness :
    callResult (fun _ => (none : Option Unit))
      { ok := false, status := 404, errorMessage := none, content := [] } =
      .remoteServiceError "ChatGPT API error: HTTP 404" ∧
    callResult (fun _ => (none : Option Unit)) resp401 =
      .remoteServiceError "ChatGPT API error: Incorrect API key provided" := by
  constructor
  · have h := (remote_error_message Unit (fun _ => none)
      { ok := false, status := 404, errorMessage := none, content := [] } rfl).1
    rw [h]
    rfl
  · have h := (remote_error_message Unit (fun _ => none) resp401 rfl).1
    rw [h]
    rfl

end Resume
